import Mathlib

/-
Verification of the Pelican configuration module `pelicanconf.py`.

The module is a flat sequence of top-level assignments, executed once in
order.  We embed it as a list of (name, expression) statements evaluated
sequentially into an environment, so that references to earlier bindings
(FEED_DOMAIN = SITEURL) are resolved exactly as Python resolves them.
Brace characters occurring in the template strings are written with the
escapes \x7b and \x7d.
-/

namespace Pelicanconf

/-- Values a top-level assignment in pelicanconf.py produces: the module
only binds string and integer constants. -/
inductive Value where
  | str (s : String)
  | int (n : Int)
deriving DecidableEq

/-- Right-hand sides occurring in pelicanconf.py: a string literal, an
integer literal, or a reference to a previously bound module-level name. -/
inductive Expr where
  | strLit (s : String)
  | intLit (n : Int)
  | var (name : String)
deriving DecidableEq

/-- Lookup of a name in an environment, most recent binding first. -/
def lookupEnv (env : List (String × Value)) (k : String) : Option Value :=
  match env with
  | [] => none
  | (k₂, v) :: rest => if k₂ = k then some v else lookupEnv rest k

/-- Evaluation of a right-hand side under the bindings made so far; a
reference to an unbound name fails, as a Python NameError would. -/
def evalExpr (env : List (String × Value)) : Expr → Option Value
  | .strLit s => some (.str s)
  | .intLit n => some (.int n)
  | .var x => lookupEnv env x

/-- Sequential evaluation of the assignment statements of the module,
each new binding shadowing any earlier one of the same name. -/
def evalStmts : List (String × Expr) → List (String × Value) → Option (List (String × Value))
  | [], env => some env
  | (k, e) :: rest, env =>
    match evalExpr env e with
    | some v => evalStmts rest ((k, v) :: env)
    | none => none

/-- The assignment statements of src/pelicanconf.py, in source order. -/
def stmts : List (String × Expr) :=
  [ ("AUTHOR", .strLit "Joshua R. Rodgers"),
    ("SITENAME", .strLit "The Enginerd"),
    ("SITEURL", .strLit "http://mr-byte.github.io/blog"),
    ("GITHUB_URL", .strLit "http://github.com/mr-byte/blog"),
    ("PATH", .strLit "Programming"),
    ("TIMEZONE", .strLit "America/Denver"),
    ("DEFAULT_LANG", .strLit "en"),
    ("FEED_DOMAIN", .var "SITEURL"),
    ("FEED_ALL_ATOM", .strLit "atom.xml"),
    ("CATEGORY_FEED_ATOM", .strLit "categories/%s/atom.xml"),
    ("ARTICLE_URL", .strLit "blog/\x7bdate:%Y\x7d/\x7bdate:%m\x7d/\x7bdate:%d\x7d/\x7bslug\x7d/"),
    ("ARTICLE_SAVE_AS", .strLit "blog/\x7bdate:%Y\x7d/\x7bdate:%m\x7d/\x7bdate:%d\x7d/\x7bslug\x7d/index.html"),
    ("ARCHIVES_SAVE_AS", .strLit "blog/archives/index.html"),
    ("CATEGORY_URL", .strLit "categories/\x7bslug\x7d/"),
    ("CATEGORY_SAVE_AS", .strLit "categories/\x7bslug\x7d/index.html"),
    ("DEFAULT_PAGINATION", .intLit 10) ]

/-- The environment produced by evaluating the module. -/
def configEnv : List (String × Value) := (evalStmts stmts []).getD []

/-- The value bound to a configuration key after the module has run. -/
def getVal (k : String) : Option Value := lookupEnv configEnv k

/-- The string bound to a configuration key, when it is string-valued. -/
def getStr (k : String) : Option String :=
  match getVal k with
  | some (.str s) => some s
  | _ => none

/-- Whether a configuration key is defined by the module. -/
def definedKey (k : String) : Bool := (getVal k).isSome

/-- The opening brace character of a template placeholder. -/
def lbrace : Char := Char.ofNat 123

/-- The closing brace character of a template placeholder. -/
def rbrace : Char := Char.ofNat 125

/-- Whether the first list is an initial segment of the second. -/
def leadsWith : List Char → List Char → Bool
  | [], _ => true
  | _ :: _, [] => false
  | p :: ps, c :: cs => p = c && leadsWith ps cs

/-- Whether the pattern occurs as a contiguous substring of the list. -/
def hasSub (pat : List Char) : List Char → Bool
  | [] => leadsWith pat []
  | c :: cs => leadsWith pat (c :: cs) || hasSub pat cs

/-- Scan of a template for brace-delimited placeholders: collects the
contents of each brace pair, left to right. -/
def braceScan (inside : Bool) (acc : List Char) : List Char → List (List Char)
  | [] => []
  | c :: cs =>
    if inside then
      if c = rbrace then acc.reverse :: braceScan false [] cs
      else braceScan true (c :: acc) cs
    else
      if c = lbrace then braceScan true [] cs
      else braceScan false [] cs

/-- The brace-delimited placeholders of a template string. -/
def braceHolders (t : String) : List String :=
  (braceScan false [] t.data).map (fun l => ⟨l⟩)

/-- The literal text of a template with every brace-delimited placeholder
removed. -/
def stripScan (inside : Bool) : List Char → List Char
  | [] => []
  | c :: cs =>
    if inside then
      if c = rbrace then stripScan false cs else stripScan true cs
    else
      if c = lbrace then stripScan true cs
      else c :: stripScan false cs

/-- The percent-style placeholders of a character list: each percent sign
together with the character that follows it. -/
def percentHolders : List Char → List String
  | [] => []
  | '%' :: d :: ds => (⟨['%', d]⟩ : String) :: percentHolders ds
  | '%' :: [] => [(⟨['%']⟩ : String)]
  | _ :: cs => percentHolders cs

/-- Whether a brace placeholder is one of the documented ones: the slug
placeholder, or a date placeholder with a format code. -/
def documentedBrace (p : String) : Bool :=
  p = "slug" || leadsWith "date:".data p.data

/-- Whether a string-valued setting satisfies a check. -/
def strSettingOk (check : String → Bool) (k : String) : Bool :=
  match getStr k with
  | some t => check t
  | none => false

/-- Whether a brace-style template carries only documented placeholders
and no percent-style placeholder in its literal text. -/
def braceTemplateOk (t : String) : Bool :=
  (braceHolders t).all documentedBrace
    && (percentHolders (stripScan false t.data)).isEmpty

/-- Whether a percent-style feed template carries no brace placeholder and
exactly one percent placeholder, the string one. -/
def feedTemplateOk (t : String) : Bool :=
  (braceHolders t).isEmpty && decide (percentHolders t.data = ["%s"])

/-- Replacement of the first occurrence of a pattern in a character list. -/
def replaceFirst (pat rep : List Char) : List Char → List Char
  | [] => []
  | c :: cs =>
    if leadsWith pat (c :: cs) then rep ++ (c :: cs).drop pat.length
    else c :: replaceFirst pat rep cs

/-- Replacement of the first occurrence of a pattern in a string. -/
def substFirst (pat rep t : String) : String :=
  ⟨replaceFirst pat.data rep.data t.data⟩

/-- Whether a value is a string that is a relative path: it neither starts
with a slash nor contains a URL scheme marker. -/
def isRelPath : Option Value → Bool
  | some (.str s) =>
    (match s.data with
     | [] => true
     | c :: _ => c != '/')
      && !(hasSub "http://".data s.data)
  | _ => false

/-- Whether a value, when it is a string, is non-empty. -/
def nonEmptyIfStr : Value → Bool
  | .str s => !s.isEmpty
  | .int _ => true

/-- The configuration keys the interface table of the specification lists
as required; transcribed from the specification for comparison with the
module (every other definition here is taken from the source). -/
def specRequiredKeys : List String :=
  [ "AUTHOR", "SITENAME", "SITEURL", "GITHUB_URL", "PATH", "TIMEZONE",
    "DEFAULT_LANG", "FEED_DOMAIN", "FEED_ALL_ATOM", "CATEGORY_FEED_ATOM",
    "ARTICLE_URL", "ARTICLE_SAVE_AS", "ARCHIVES_SAVE_AS", "CATEGORY_URL",
    "CATEGORY_SAVE_AS", "DEFAULT_PAGINATION" ]

/-- The path-valued settings of the module. -/
def pathKeys : List String :=
  [ "PATH", "FEED_ALL_ATOM", "CATEGORY_FEED_ATOM", "ARTICLE_URL",
    "ARTICLE_SAVE_AS", "ARCHIVES_SAVE_AS", "CATEGORY_URL",
    "CATEGORY_SAVE_AS" ]

/-- Evaluation of the module as a function of the ambient process
environment: the source contains no construct that reads input, an
environment variable, or any other external state, so the ambient
environment is never consulted. -/
def evalModule (_ext : String → Option String) : Option (List (String × Value)) :=
  evalStmts stmts []

/-- C1: for both *_URL / *_SAVE_AS key pairs defined in the file, the
SAVE_AS value equals the URL value with "index.html" appended. -/
theorem save_as_eq_url_append_index :
    getStr "ARTICLE_SAVE_AS" = (getStr "ARTICLE_URL").map (fun u => u ++ "index.html") ∧
    getStr "CATEGORY_SAVE_AS" = (getStr "CATEGORY_URL").map (fun u => u ++ "index.html") := by
  constructor <;> rfl

/-- C2: the value of FEED_DOMAIN equals the value of SITEURL. -/
theorem feed_domain_eq_siteurl : getVal "FEED_DOMAIN" = getVal "SITEURL" := rfl

/-- C3 (counterexample): the claim that all three page kinds define both a
URL key and a SAVE_AS key is false: ARCHIVES_URL is not defined. -/
theorem url_per_kind_claim_false :
    ¬ (definedKey "ARTICLE_URL" ∧ definedKey "ARTICLE_SAVE_AS" ∧
       definedKey "ARCHIVES_URL" ∧ definedKey "ARCHIVES_SAVE_AS" ∧
       definedKey "CATEGORY_URL" ∧ definedKey "CATEGORY_SAVE_AS") := by
  decide

/-- C3 (amended): articles and categories each define both a URL key and a
SAVE_AS key, while archives define only ARCHIVES_SAVE_AS, with no
ARCHIVES_URL counterpart. -/
theorem url_per_kind_amended :
    definedKey "ARTICLE_URL" ∧ definedKey "ARTICLE_SAVE_AS" ∧
    definedKey "CATEGORY_URL" ∧ definedKey "CATEGORY_SAVE_AS" ∧
    definedKey "ARCHIVES_SAVE_AS" ∧ definedKey "ARCHIVES_URL" = false := by
  decide

/-- C4: every template-valued setting contains only the documented
placeholders: the brace-style templates carry only slug and date
placeholders and no percent placeholder in their literal text, and
CATEGORY_FEED_ATOM carries no brace placeholder and exactly one percent
placeholder, the string one. -/
theorem templates_only_documented_placeholders :
    strSettingOk braceTemplateOk "ARTICLE_URL" ∧
    strSettingOk braceTemplateOk "ARTICLE_SAVE_AS" ∧
    strSettingOk braceTemplateOk "CATEGORY_URL" ∧
    strSettingOk braceTemplateOk "CATEGORY_SAVE_AS" ∧
    strSettingOk feedTemplateOk "CATEGORY_FEED_ATOM" := by
  decide

/-- C5: DEFAULT_PAGINATION is bound to an integer strictly greater than
zero. -/
theorem default_pagination_positive_int :
    ∃ n : Int, getVal "DEFAULT_PAGINATION" = some (.int n) ∧ 0 < n :=
  ⟨10, rfl, by decide⟩

/-- C6: every key the interface table of the specification lists is
defined by the module, and every string-valued setting is bound to a
non-empty string. -/
theorem required_keys_present_and_nonempty :
    specRequiredKeys.all definedKey ∧
    configEnv.all (fun kv => nonEmptyIfStr kv.2) := by
  decide

/-- C7: every configuration name is bound exactly once: the statement list
assigns no name twice, and evaluating the module yields exactly one binding
per statement, in order, with no later mutation. -/
theorem names_bound_exactly_once :
    (stmts.map Prod.fst).Nodup ∧
    configEnv.map Prod.fst = (stmts.map Prod.fst).reverse := by
  exact ⟨by decide, rfl⟩

/-- C8: for every category slug, substituting it for the percent
placeholder of CATEGORY_FEED_ATOM yields exactly the result of
substituting it for the slug placeholder of CATEGORY_URL and appending
"atom.xml". -/
theorem category_feed_inside_category_url (s : String) :
    (getStr "CATEGORY_FEED_ATOM").map (fun t => substFirst "%s" s t) =
    (getStr "CATEGORY_URL").map (fun u => substFirst "\x7bslug\x7d" s u ++ "atom.xml") := by
  show some (substFirst "%s" s "categories/%s/atom.xml")
      = some (substFirst "\x7bslug\x7d" s "categories/\x7bslug\x7d/" ++ "atom.xml")
  refine congrArg some (String.ext ?_)
  simp [substFirst, replaceFirst, leadsWith]

/-- C9: every path-valued setting is a relative path: it neither begins
with a slash nor contains a URL scheme marker. -/
theorem path_settings_relative : pathKeys.all (fun k => isRelPath (getVal k)) := by
  decide

/-- C10: evaluating the configuration module is deterministic: the source
reads no input or external state, so the result of evaluation does not
depend on the ambient process environment. -/
theorem eval_module_deterministic (e₁ e₂ : String → Option String) :
    evalModule e₁ = evalModule e₂ := rfl

end Pelicanconf
